import Mathlib

/-!
Shallow embedding of the lookup-and-cache layer of `app.py`
(repository Hacker-Here/Static_Health_Database).

The embedded functions are `get_data_from_github`, `find_disease_info`
and `get_who_outbreak_data`.  Network effects are modelled by a fetch
oracle: `requests.get(url) … response.raise_for_status() … response.json()`
is a function `String → Option Json`, where `none` collapses every failure
mode that the Python `except` clause catches (network error, non-2xx
status, malformed body) and `some j` is the parsed JSON body.  Parsed
JSON `null` is Python `None`, so a Python function that may return
`None` or a JSON value returns a plain `Json` here, with `Json.null`
standing for `None`.

The module-level dict `data_cache` is threaded explicitly as an
association list from URL to parsed payload, and each function also
returns the number of HTTP requests it issued, so that cache/fetch
claims can be stated.
-/

/-- Parsed JSON values as Python represents them (`null` is `None`).
Numbers are modelled as integers; no claim involves numeric data. -/
inductive Json where
  | null : Json
  | bool : Bool → Json
  | num : Int → Json
  | str : String → Json
  | arr : List Json → Json
  | obj : List (String × Json) → Json

-- Structural equality on JSON values, mirroring Python `==` on parsed
-- JSON documents.
mutual
def Json.beq : Json → Json → Bool
  | .null, .null => true
  | .bool a, .bool b => a == b
  | .num a, .num b => a == b
  | .str a, .str b => a == b
  | .arr a, .arr b => Json.beqList a b
  | .obj a, .obj b => Json.beqFields a b
  | _, _ => false

def Json.beqList : List Json → List Json → Bool
  | [], [] => true
  | a :: as, b :: bs => Json.beq a b && Json.beqList as bs
  | _, _ => false

def Json.beqFields : List (String × Json) → List (String × Json) → Bool
  | [], [] => true
  | (k, v) :: as, (l, w) :: bs => k == l && Json.beq v w && Json.beqFields as bs
  | _, _ => false
end

instance : BEq Json := ⟨Json.beq⟩

/-- Python truthiness of a parsed JSON value (`if data:`):
`None`, `False`, `0`, `""`, `[]` and the empty dict are falsy. -/
def Json.truthy : Json → Bool
  | .null => false
  | .bool b => b
  | .num n => n != 0
  | .str s => s != ""
  | .arr xs => !xs.isEmpty
  | .obj fs => !fs.isEmpty

/-- Exceptions that the embedded Python expressions can raise. -/
inductive PyErr where
  | attributeError : PyErr
  | typeError : PyErr
  | keyError : PyErr

/-- Python `s.lower()` on a string: lower-case each character (the
datasets and feed use ASCII, where `Char.toLower` agrees with Python). -/
def strLower (s : String) : String :=
  String.mk (s.data.map Char.toLower)

/-- `needle` occurs as a contiguous run starting at some suffix of
`haystack`. -/
def listContainsRun (needle : List Char) : List Char → Bool
  | [] => needle.isPrefixOf []
  | c :: rest => needle.isPrefixOf (c :: rest) || listContainsRun needle rest

/-- `haystack` contains `needle` as a substring (Python `needle in haystack`
on strings, case-sensitive). -/
def strContains (haystack needle : String) : Bool :=
  listContainsRun needle.data haystack.data

/-- Python `d.get(key, default)`: only dicts have `.get`; any other
receiver raises `AttributeError`. -/
def pyGet (j : Json) (key : String) (default : Json) : Except PyErr Json :=
  match j with
  | .obj fs => .ok ((fs.lookup key).getD default)
  | _ => .error .attributeError

/-- Python `d[key]` with a string key: dict lookup (raising `KeyError`
when absent); every non-dict receiver raises `TypeError`. -/
def pyIndex (j : Json) (key : String) : Except PyErr Json :=
  match j with
  | .obj fs =>
    match fs.lookup key with
    | some v => .ok v
    | none => .error .keyError
  | _ => .error .typeError

/-- Python `x.lower()`: only strings have `.lower`. -/
def pyLower (j : Json) : Except PyErr String :=
  match j with
  | .str s => .ok (strLower s)
  | _ => .error .attributeError

/-- Python `for item in x`: lists yield their elements, strings their
characters, dicts their keys; other values raise `TypeError`. -/
def pyIter (j : Json) : Except PyErr (List Json) :=
  match j with
  | .arr xs => .ok xs
  | .str s => .ok (s.data.map fun c => .str (String.mk [c]))
  | .obj fs => .ok (fs.map fun p => .str p.1)
  | _ => .error .typeError

/-- Python `key in x`: key containment for dicts, membership for lists,
substring test for strings; other values raise `TypeError`. -/
def pyContains (j : Json) (key : String) : Except PyErr Bool :=
  match j with
  | .obj fs => .ok (fs.lookup key).isSome
  | .arr xs => .ok (xs.contains (Json.str key))
  | .str s => .ok (strContains s key)
  | _ => .error .typeError

/-- Python `x[:5]`: lists and strings slice; other values raise
`TypeError`. -/
def pyTake5 (j : Json) : Except PyErr Json :=
  match j with
  | .arr xs => .ok (.arr (xs.take 5))
  | .str s => .ok (.str (String.mk (s.data.take 5)))
  | _ => .error .typeError

/-- Python `"literal" + x`: string concatenation; a non-string right
operand raises `TypeError`. -/
def pyAddStr (a : String) (j : Json) : Except PyErr String :=
  match j with
  | .str s => .ok (a ++ s)
  | _ => .error .typeError

-- Python `repr` of a parsed JSON value (used by `str` on containers).
mutual
def pyRepr : Json → String
  | .null => "None"
  | .bool b => if b then "True" else "False"
  | .num n => toString n
  | .str s => "'" ++ s ++ "'"
  | .arr xs => "[" ++ pyReprItems xs ++ "]"
  | .obj fs => "\x7b" ++ pyReprFields fs ++ "\x7d"

def pyReprItems : List Json → String
  | [] => ""
  | [j] => pyRepr j
  | j :: js => pyRepr j ++ ", " ++ pyReprItems js

def pyReprFields : List (String × Json) → String
  | [] => ""
  | [(k, v)] => "'" ++ k ++ "': " ++ pyRepr v
  | (k, v) :: fs => "'" ++ k ++ "': " ++ pyRepr v ++ ", " ++ pyReprFields fs
end

/-- Python `str(x)` on a parsed JSON value, as interpolated by an
f-string. -/
def pyStr : Json → String
  | .str s => s
  | j => pyRepr j

/-- The module-level `data_cache` dict, URL to parsed payload. -/
abbrev Cache := List (String × Json)

/-- `SYMPTOMS_URL` from `app.py`. -/
def SYMPTOMS_URL : String :=
  "https://raw.githubusercontent.com/Hacker-Here/Static_Health_Database/main/disease_symptoms.json"

/-- `PREVENTION_URL` from `app.py`. -/
def PREVENTION_URL : String :=
  "https://raw.githubusercontent.com/Hacker-Here/Static_Health_Database/main/disease_preventions.json"

/-- `get_data_from_github(url)` from `app.py`: on a cache hit, return the
stored value; on a miss, fetch (counted), store on success, and return
`None` (`Json.null`) on failure leaving the cache unchanged.
Result: (returned value, cache afterwards, number of HTTP requests). -/
def get_data_from_github (fetch : String → Option Json) (cache : Cache)
    (url : String) : Json × Cache × Nat :=
  match cache.lookup url with
  | some v => (v, cache, 0)
  | none =>
    match fetch url with
    | some d => (d, cache ++ [(url, d)], 1)
    | none => (.null, cache, 1)

/-- The `for item in …` loop of `find_disease_info`: return the
category field of the first record whose lowered `name` equals the
lowered query, else fall through to `None`. -/
def scanLoop (disease_name field : String) : List Json → Except PyErr Json
  | [] => .ok .null
  | item :: rest =>
    match pyIndex item "name" with
    | .error e => .error e
    | .ok nj =>
      match pyLower nj with
      | .error e => .error e
      | .ok nm =>
        if nm = strLower disease_name then pyGet item field (.arr [])
        else scanLoop disease_name field rest

/-- The shared shape of both dataset branches of `find_disease_info`:
extract the record list under `key` (default `[]`) and run the scan. -/
def lookupScan (data : Json) (disease_name key field : String) :
    Except PyErr Json :=
  match pyGet data key (.arr []) with
  | .error e => .error e
  | .ok coll =>
    match pyIter coll with
    | .error e => .error e
    | .ok items => scanLoop disease_name field items

/-- `find_disease_info(disease_name, info_type)` from `app.py`.
Result: (returned value or raised exception, cache afterwards, number
of HTTP requests). -/
def find_disease_info (fetch : String → Option Json) (cache : Cache)
    (disease_name info_type : String) : Except PyErr Json × Cache × Nat :=
  if info_type = "symptoms" then
    let r := get_data_from_github fetch cache SYMPTOMS_URL
    if r.1.truthy then
      (lookupScan r.1 disease_name "diseases_with_symptoms" "symptoms", r.2.1, r.2.2)
    else (.ok .null, r.2.1, r.2.2)
  else if info_type = "prevention" then
    let r := get_data_from_github fetch cache PREVENTION_URL
    if r.1.truthy then
      (lookupScan r.1 disease_name "diseases_with_prevention_measures"
        "prevention_measures", r.2.1, r.2.2)
    else (.ok .null, r.2.1, r.2.2)
  else (.ok .null, cache, 0)

/-- The body of the `for item in data["value"][:5]` loop of
`get_who_outbreak_data`: one formatted display line. -/
def formatLine (item : Json) : Except PyErr String :=
  match pyGet item "OverrideTitle" .null with
  | .error e => .error e
  | .ok o =>
    match pyGet item "Title" .null with
    | .error e => .error e
    | .ok t =>
      let title := if o.truthy then o else t
      match pyGet item "FormattedDate" (.str "Unknown date") with
      | .error e => .error e
      | .ok date =>
        match pyGet item "ItemDefaultUrl" (.str "") with
        | .error e => .error e
        | .ok u =>
          match pyAddStr "https://www.who.int" u with
          | .error e => .error e
          | .ok url =>
            .ok ("🦠 " ++ pyStr title ++ " (" ++ pyStr date ++ ")\n🔗 " ++ url)

/-- The whole append loop of `get_who_outbreak_data`, in order; a raised
exception aborts the loop. -/
def formatLines : List Json → Except PyErr (List String)
  | [] => .ok []
  | item :: rest =>
    match formatLine item with
    | .error e => .error e
    | .ok line =>
      match formatLines rest with
      | .error e => .error e
      | .ok ls => .ok (line :: ls)

/-- The filter-independent prefix of the `try` body of
`get_who_outbreak_data` after a successful fetch parsed to `data`:
the two early `return None` guards and the formatting loop.
`ok none` is an early `return None`; `ok (some outbreaks)` reaches the
filtering step with the formatted lines; `Except` carries any raised
exception to the enclosing handler. -/
def whoOutbreaks (data : Json) : Except PyErr (Option (List String)) :=
  match pyContains data "value" with
  | .error e => .error e
  | .ok hasV =>
    if !hasV then .ok none
    else
      match pyIndex data "value" with
      | .error e => .error e
      | .ok v =>
        if !v.truthy then .ok none
        else
          match pyTake5 v with
          | .error e => .error e
          | .ok sliced =>
            match pyIter sliced with
            | .error e => .error e
            | .ok items =>
              match formatLines items with
              | .error e => .error e
              | .ok outbreaks => .ok (some outbreaks)

/-- The whole `try` body of `get_who_outbreak_data`: the prefix above
followed by the optional case-insensitive substring filter over the
formatted lines (an empty filter result returns `None`). -/
def whoBody (data : Json) (disease : Option String) :
    Except PyErr (Option (List String)) :=
  match whoOutbreaks data with
  | .error e => .error e
  | .ok none => .ok none
  | .ok (some outbreaks) =>
    match disease with
    | some d =>
      let filtered :=
        outbreaks.filter fun i => strContains (strLower i) (strLower d)
      .ok (if filtered.isEmpty then none else some filtered)
    | none => .ok (some outbreaks)

/-- `get_who_outbreak_data(disease=None)` from `app.py`.  `fetchW` is
the outcome of the single `requests.get(WHO_API_URL, …)` of the body
(`none` when the request, status check or JSON decoding raises).  The
function never reads `data_cache`, so the cache passes through
unchanged; exactly one HTTP request is issued per call, and the
`except` clause turns every raised exception into `None`.
Result: (returned value, cache afterwards, number of HTTP requests). -/
def get_who_outbreak_data (fetchW : Option Json) (disease : Option String)
    (cache : Cache) : Option (List String) × Cache × Nat :=
  match fetchW with
  | none => (none, cache, 1)
  | some data =>
    match whoBody data disease with
    | .error _ => (none, cache, 1)
    | .ok r => (r, cache, 1)

/-! ### Spec-side definitions

These follow the specification's words, for comparison with the
embedded code: the resolver "returns the first record whose `name`
field matches `disease_name` case-insensitively" and its
"category-specific field list", and the outbreak filter "retains only
items whose title contains the filter substring, case-insensitively". -/

/-- The lowered `name` field of a disease record, when the record is an
object whose `name` field is a string. -/
def recordNameLower : Json → Option String
  | .obj fs =>
    match fs.lookup "name" with
    | some (.str s) => some (strLower s)
    | _ => none
  | _ => none

/-- The category-specific field list of a record (defaulting to `[]`
when the field is absent, as the code's `item.get(field, [])` does). -/
def fieldListOf (item : Json) (field : String) : Json :=
  match item with
  | .obj fs => (fs.lookup field).getD (.arr [])
  | _ => .null

/-- The specification's resolution rule: the category field list of the
first record whose `name` equals the query case-insensitively, `null`
when no record matches. -/
def specResolve (disease_name field : String) (items : List Json) : Json :=
  match items.find? (fun it => recordNameLower it == some (strLower disease_name)) with
  | some it => fieldListOf it field
  | none => .null

/-- The resolver's two categories, with the URL, top-level key and
record field each one uses in `find_disease_info`. -/
def categories : List (String × String × String × String) :=
  [("symptoms", SYMPTOMS_URL, "diseases_with_symptoms", "symptoms"),
   ("prevention", PREVENTION_URL, "diseases_with_prevention_measures",
    "prevention_measures")]

/-- The title of an outbreak item as the code selects it
(`OverrideTitle` when truthy, else `Title`). -/
def titleOf : Json → Json
  | .obj fs =>
    if ((fs.lookup "OverrideTitle").getD .null).truthy
    then (fs.lookup "OverrideTitle").getD .null
    else (fs.lookup "Title").getD .null
  | _ => .null

/-- The specification's filter criterion: the item's title contains the
filter substring, case-insensitively. -/
def titleContainsCI (item : Json) (filt : String) : Bool :=
  strContains (strLower (pyStr (titleOf item))) (strLower filt)

/-! ### Concrete fixtures used by witnesses and counterexamples -/

/-- The single symptoms record of the specification's scenario dataset. -/
def fluItem : Json :=
  .obj [("name", .str "Flu"), ("symptoms", .arr [.str "fever", .str "cough"])]

/-- The field list of the scenario dataset
`\x7b"diseases_with_symptoms":[\x7b"name":"Flu","symptoms":["fever","cough"]\x7d]\x7d`. -/
def fluFields : List (String × Json) := [("diseases_with_symptoms", .arr [fluItem])]

/-- The scenario dataset as a JSON object. -/
def fluData : Json := .obj fluFields

/-- A fetch oracle serving the scenario dataset at `SYMPTOMS_URL`. -/
def fluFetch : String → Option Json := fun u =>
  if u = SYMPTOMS_URL then some fluData else none

/-- A symptoms dataset holding a single `Malaria` record. -/
def malariaData : Json :=
  .obj [("diseases_with_symptoms",
    .arr [.obj [("name", .str "Malaria"), ("symptoms", .arr [.str "fever"])]])]

/-- A fetch oracle serving the `Malaria` dataset at `SYMPTOMS_URL`. -/
def malariaFetch : String → Option Json := fun u =>
  if u = SYMPTOMS_URL then some malariaData else none

/-- A concrete outbreak feed item whose title is `Dengue outbreak`. -/
def whoItem : Json :=
  .obj [("Title", .str "Dengue outbreak"), ("FormattedDate", .str "1 July 2025"),
        ("ItemDefaultUrl", .str "/news/item/dengue")]

/-- A feed response whose `value` array holds the single item above. -/
def whoData : Json := .obj [("value", .arr [whoItem])]

/-- The display line `get_who_outbreak_data` formats for `whoItem`. -/
def whoLine : String :=
  "🦠 Dengue outbreak (1 July 2025)\n🔗 https://www.who.int/news/item/dengue"

/-- A fetch oracle on which every request fails (network error, non-2xx
status or malformed body). -/
def failFetch : String → Option Json := fun _ => none

/-- A fetch oracle on which every request succeeds with the body `7`. -/
def numFetch : String → Option Json := fun _ => some (.num 7)

/-! ### Helper lemmas -/

theorem truthy_obj (fs : List (String × Json)) (k : String) (v : Json)
    (h : fs.lookup k = some v) : (Json.obj fs).truthy = true := by
  cases fs with
  | nil => simp [List.lookup] at h
  | cons a l => rfl

theorem scanLoop_eq_specResolve (name field : String) :
    ∀ items : List Json, (∀ it ∈ items, (recordNameLower it).isSome = true) →
      scanLoop name field items = .ok (specResolve name field items) := by
  intro items
  induction items with
  | nil => intro _; rfl
  | cons item rest ih =>
    intro hwf
    have hitem : (recordNameLower item).isSome = true :=
      hwf item (List.mem_cons_self _ _)
    have hrest : ∀ it ∈ rest, (recordNameLower it).isSome = true :=
      fun it hit => hwf it (List.mem_cons_of_mem _ hit)
    cases item with
    | obj fs =>
      cases hn : fs.lookup "name" with
      | none => simp [recordNameLower, hn] at hitem
      | some nv =>
        cases nv with
        | str s =>
          have hrec : recordNameLower (Json.obj fs) = some (strLower s) := by
            simp [recordNameLower, hn]
          by_cases heq : strLower s = strLower name
          · simp only [scanLoop, pyIndex, hn, pyLower, if_pos heq]
            have hpos :
                (recordNameLower (Json.obj fs) == some (strLower name)) = true := by
              simp [hrec, heq]
            have hfind :
                List.find? (fun it => recordNameLower it == some (strLower name))
                    (Json.obj fs :: rest) = some (Json.obj fs) :=
              List.find?_cons_of_pos _ hpos
            simp [specResolve, hfind, pyGet, fieldListOf]
          · have hneg :
                ¬ (recordNameLower (Json.obj fs) == some (strLower name)) = true := by
              simp [hrec, heq]
            have hfind :
                List.find? (fun it => recordNameLower it == some (strLower name))
                    (Json.obj fs :: rest)
                  = List.find? (fun it => recordNameLower it == some (strLower name))
                      rest :=
              List.find?_cons_of_neg _ hneg
            simp only [scanLoop, pyIndex, hn, pyLower, if_neg heq]
            rw [ih hrest]
            simp [specResolve, hfind]
        | null => simp [recordNameLower, hn] at hitem
        | bool b => simp [recordNameLower, hn] at hitem
        | num n => simp [recordNameLower, hn] at hitem
        | arr xs => simp [recordNameLower, hn] at hitem
        | obj gs => simp [recordNameLower, hn] at hitem
    | null => simp [recordNameLower] at hitem
    | bool b => simp [recordNameLower] at hitem
    | num n => simp [recordNameLower] at hitem
    | str s => simp [recordNameLower] at hitem
    | arr xs => simp [recordNameLower] at hitem

theorem find_disease_info_eq_spec (fetch : String → Option Json) (cache : Cache)
    (name ty url key field : String) (fs : List (String × Json)) (items : List Json)
    (hcat : (ty, url, key, field) ∈ categories)
    (hdata : (get_data_from_github fetch cache url).1 = Json.obj fs)
    (hkey : fs.lookup key = some (Json.arr items))
    (hwf : ∀ it ∈ items, (recordNameLower it).isSome = true) :
    find_disease_info fetch cache name ty
      = (.ok (specResolve name field items),
         (get_data_from_github fetch cache url).2.1,
         (get_data_from_github fetch cache url).2.2) := by
  have hscan := scanLoop_eq_specResolve name field items hwf
  simp only [categories, List.mem_cons, List.not_mem_nil, or_false,
    Prod.mk.injEq] at hcat
  rcases hcat with ⟨rfl, rfl, rfl, rfl⟩ | ⟨rfl, rfl, rfl, rfl⟩
  · have htr : (get_data_from_github fetch cache SYMPTOMS_URL).1.truthy = true := by
      rw [hdata]; exact truthy_obj _ _ _ hkey
    simp only [find_disease_info, if_pos rfl, htr, if_true]
    refine congrArg (fun b => (b, _, _)) ?_
    rw [hdata]
    simp [lookupScan, pyGet, hkey, pyIter, hscan]
  · have htr : (get_data_from_github fetch cache PREVENTION_URL).1.truthy = true := by
      rw [hdata]; exact truthy_obj _ _ _ hkey
    have hne : ¬ ("prevention" : String) = "symptoms" := by decide
    simp only [find_disease_info, if_neg hne, if_pos rfl, htr, if_true]
    refine congrArg (fun b => (b, _, _)) ?_
    rw [hdata]
    simp [lookupScan, pyGet, hkey, pyIter, hscan]

theorem scanLoop_lower_eq (n1 n2 : String) (h : strLower n1 = strLower n2) :
    ∀ (field : String) (items : List Json),
      scanLoop n1 field items = scanLoop n2 field items := by
  intro field items
  induction items with
  | nil => rfl
  | cons item rest ih => simp only [scanLoop, h, ih]

theorem lookupScan_lower_eq (n1 n2 : String) (h : strLower n1 = strLower n2) :
    ∀ (data : Json) (key field : String),
      lookupScan data n1 key field = lookupScan data n2 key field := by
  intro data key field
  simp only [lookupScan, scanLoop_lower_eq n1 n2 h]

theorem lookup_append_of_some (k : String) (w : Json) :
    ∀ (l1 l2 : Cache), l1.lookup k = some w → (l1 ++ l2).lookup k = some w := by
  intro l1 l2 h
  induction l1 with
  | nil => simp [List.lookup] at h
  | cons a l ih =>
    obtain ⟨k', v'⟩ := a
    simp only [List.cons_append, List.lookup] at h ⊢
    cases hk : (k == k') with
    | true => rw [hk] at h; exact h
    | false => rw [hk] at h; exact ih h

theorem lookup_append_single_self (k : String) (v : Json) :
    ∀ l : Cache, l.lookup k = none → (l ++ [(k, v)]).lookup k = some v := by
  intro l h
  induction l with
  | nil => simp [List.lookup]
  | cons a l ih =>
    obtain ⟨k', v'⟩ := a
    simp only [List.cons_append, List.lookup] at h ⊢
    cases hk : (k == k') with
    | true => rw [hk] at h; exact absurd (h : some v' = none) (by simp)
    | false => rw [hk] at h; exact ih h

theorem formatLines_length :
    ∀ (items : List Json) (ls : List String),
      formatLines items = .ok ls → ls.length = items.length := by
  intro items
  induction items with
  | nil => intro ls h; simp only [formatLines] at h; cases h; rfl
  | cons item rest ih =>
    intro ls h
    simp only [formatLines] at h
    cases hl : formatLine item with
    | error e => rw [hl] at h; cases h
    | ok line =>
      rw [hl] at h
      cases hr : formatLines rest with
      | error e => rw [hr] at h; cases h
      | ok tail =>
        rw [hr] at h
        cases h
        simp [ih tail hr]

theorem take5_iter_length_le (v sliced : Json) (items : List Json)
    (h1 : pyTake5 v = .ok sliced) (h2 : pyIter sliced = .ok items) :
    items.length ≤ 5 := by
  cases v with
  | arr xs =>
    simp only [pyTake5] at h1
    cases h1
    simp only [pyIter] at h2
    cases h2
    simp
  | str s =>
    simp only [pyTake5] at h1
    cases h1
    simp only [pyIter] at h2
    cases h2
    simp
  | null => simp [pyTake5] at h1
  | bool b => simp [pyTake5] at h1
  | num n => simp [pyTake5] at h1
  | obj fs => simp [pyTake5] at h1

theorem whoOutbreaks_length_le (data : Json) (o : List String)
    (h : whoOutbreaks data = .ok (some o)) : o.length ≤ 5 := by
  simp only [whoOutbreaks] at h
  split at h
  · simp at h
  · split at h
    · simp at h
    · split at h
      · simp at h
      · split at h
        · simp at h
        · split at h
          · simp at h
          · split at h
            · simp at h
            · split at h
              · simp at h
              · rename_i x2 sliced ht x1 items hit x0 ls hf
                simp only [Except.ok.injEq, Option.some.injEq] at h
                subst h
                calc ls.length = items.length := formatLines_length items ls hf
                  _ ≤ 5 := take5_iter_length_le _ sliced items ht hit

theorem whoBody_none_inv (data : Json) (lines : List String)
    (h : whoBody data none = .ok (some lines)) :
    whoOutbreaks data = .ok (some lines) := by
  simp only [whoBody] at h
  cases hwo : whoOutbreaks data with
  | error e => rw [hwo] at h; cases h
  | ok o =>
    rw [hwo] at h
    cases o with
    | none => simp at h
    | some os => simp at h; rw [h]

theorem who_unfiltered_inv (data : Json) (cache : Cache) (lines : List String)
    (h : (get_who_outbreak_data (some data) none cache).1 = some lines) :
    whoOutbreaks data = .ok (some lines) := by
  simp only [get_who_outbreak_data] at h
  cases hb : whoBody data none with
  | error e => rw [hb] at h; simp at h
  | ok r =>
    rw [hb] at h
    simp at h
    exact whoBody_none_inv data lines (by rw [hb, h])

theorem who_filtered_eq (data : Json) (cache : Cache) (lines : List String)
    (d : String)
    (h : (get_who_outbreak_data (some data) none cache).1 = some lines) :
    (get_who_outbreak_data (some data) (some d) cache).1 =
      (if (lines.filter fun i => strContains (strLower i) (strLower d)).isEmpty
       then none
       else some (lines.filter fun i => strContains (strLower i) (strLower d))) := by
  have hwo := who_unfiltered_inv data cache lines h
  simp [get_who_outbreak_data, whoBody, hwo]

theorem who_filtered_inv (data : Json) (d : String) (cache : Cache)
    (ls : List String)
    (h : (get_who_outbreak_data (some data) (some d) cache).1 = some ls) :
    ∃ outbreaks, whoOutbreaks data = .ok (some outbreaks) ∧
      ls = outbreaks.filter (fun i => strContains (strLower i) (strLower d)) := by
  simp only [get_who_outbreak_data] at h
  cases hb : whoBody data (some d) with
  | error e => rw [hb] at h; simp at h
  | ok r =>
    rw [hb] at h
    simp only at h
    simp only [whoBody] at hb
    cases hwo : whoOutbreaks data with
    | error e => rw [hwo] at hb; cases hb
    | ok o =>
      rw [hwo] at hb
      cases o with
      | none =>
        simp only [Except.ok.injEq] at hb
        rw [← hb] at h
        cases h
      | some outbreaks =>
        refine ⟨outbreaks, rfl, ?_⟩
        simp only [Except.ok.injEq] at hb
        rw [← hb] at h
        by_cases he :
            (outbreaks.filter fun i => strContains (strLower i) (strLower d)).isEmpty
        · rw [if_pos he] at h; cases h
        · rw [if_neg he] at h
          exact (Option.some.injEq _ _ ▸ h).symm

/-! ### Claim theorems -/

/-- C1: for every disease name and category in the symptoms/prevention
pair, `find_disease_info` obtains the category's dataset through the
cache (it returns the cache state and request count of that cache
access) and returns the category field list of the first record whose
`name` equals the query case-insensitively (exact match), as stated by
the spec-side `specResolve`. -/
theorem find_disease_info_returns_first_ci_match
    (fetch : String → Option Json) (cache : Cache)
    (name ty url key field : String) (fs : List (String × Json))
    (items : List Json)
    (hcat : (ty, url, key, field) ∈ categories)
    (hdata : (get_data_from_github fetch cache url).1 = Json.obj fs)
    (hkey : fs.lookup key = some (Json.arr items))
    (hwf : ∀ it ∈ items, (recordNameLower it).isSome = true) :
    find_disease_info fetch cache name ty
      = (.ok (specResolve name field items),
         (get_data_from_github fetch cache url).2.1,
         (get_data_from_github fetch cache url).2.2) :=
  find_disease_info_eq_spec fetch cache name ty url key field fs items
    hcat hdata hkey hwf

/-- C1 witness: on the scenario dataset, resolving `"flu"` for
symptoms yields `["fever", "cough"]`. -/
theorem find_disease_info_returns_first_ci_match_witness :
    (get_data_from_github fluFetch [] SYMPTOMS_URL).1 = Json.obj fluFields ∧
    fluFields.lookup "diseases_with_symptoms" = some (Json.arr [fluItem]) ∧
    find_disease_info fluFetch [] "flu" "symptoms"
      = (.ok (.arr [.str "fever", .str "cough"]), [(SYMPTOMS_URL, fluData)], 1) :=
  ⟨rfl, rfl,
    find_disease_info_returns_first_ci_match fluFetch [] "flu" "symptoms"
      SYMPTOMS_URL "diseases_with_symptoms" "symptoms" fluFields [fluItem]
      (List.mem_cons_self _ _) rfl rfl
      (by intro it hit; rw [List.mem_singleton] at hit; subst hit; rfl)⟩

/-- C2: `get_data_from_github` returns the stored value with no network
access on a hit; on a miss it fetches once and stores on success; on
failure it returns `None` (no exception escapes) leaving the cache
unchanged, and a later call re-attempts the fetch and repopulates the
cache on success. -/
theorem get_data_from_github_cache_semantics
    (fetch fetch2 : String → Option Json) (cache : Cache) (url : String)
    (v w : Json) :
    (cache.lookup url = some v →
      get_data_from_github fetch cache url = (v, cache, 0)) ∧
    (cache.lookup url = none → fetch url = some v →
      get_data_from_github fetch cache url = (v, cache ++ [(url, v)], 1)) ∧
    (cache.lookup url = none → fetch url = none →
      get_data_from_github fetch cache url = (.null, cache, 1) ∧
      (fetch2 url = some w →
        get_data_from_github fetch2 cache url = (w, cache ++ [(url, w)], 1))) := by
  refine ⟨?_, ?_, ?_⟩
  · intro h; simp [get_data_from_github, h]
  · intro h hf; simp [get_data_from_github, h, hf]
  · intro h hf
    refine ⟨by simp [get_data_from_github, h, hf], ?_⟩
    intro hf2; simp [get_data_from_github, h, hf2]

/-- C2 witness: a failed fetch returns `None` leaving the cache empty,
a successful retry stores the value, and a repeat call hits the cache
with no network access. -/
theorem get_data_from_github_cache_semantics_witness :
    get_data_from_github failFetch [] "u" = (.null, [], 1) ∧
    get_data_from_github numFetch [] "u" = (.num 7, [("u", .num 7)], 1) ∧
    get_data_from_github numFetch [("u", .num 7)] "u"
      = (.num 7, [("u", .num 7)], 0) :=
  ⟨((get_data_from_github_cache_semantics failFetch numFetch [] "u"
      (.num 7) (.num 7)).2.2 rfl rfl).1,
   ((get_data_from_github_cache_semantics failFetch numFetch [] "u"
      (.num 7) (.num 7)).2.2 rfl rfl).2 rfl,
   (get_data_from_github_cache_semantics numFetch numFetch
      [("u", .num 7)] "u" (.num 7) (.num 7)).1 rfl⟩

/-- C3 counterexample: the code filters on the whole formatted line,
not on the title.  With the filter `"who"`, the single item is
retained although its title `Dengue outbreak` does not contain `"who"`
(the match comes from the `www.who.int` link); and with the filter
`"zzz"` (zero matches) the call returns `None`, not an empty item
list. -/
theorem who_filter_matches_full_line_not_title :
    (get_who_outbreak_data (some whoData) (some "who") []).1 = some [whoLine] ∧
    titleContainsCI whoItem "who" = false ∧
    (get_who_outbreak_data (some whoData) (some "zzz") []).1 = none :=
  ⟨rfl, rfl, rfl⟩

/-- C3 amended: the filtered call retains exactly those formatted lines
of the unfiltered call whose whole line (title, date and
`www.who.int` link) contains the filter case-insensitively — a
sublist, hence subset, of the unfiltered result — and returns `None`
instead of an empty list when no line matches. -/
theorem who_filter_retains_line_matches
    (fetchW : Option Json) (d : String) (cache : Cache) (lines : List String)
    (h : (get_who_outbreak_data fetchW none cache).1 = some lines) :
    (get_who_outbreak_data fetchW (some d) cache).1
      = (if (lines.filter fun i => strContains (strLower i) (strLower d)).isEmpty
         then none
         else some (lines.filter fun i => strContains (strLower i) (strLower d))) ∧
    List.Sublist (lines.filter fun i => strContains (strLower i) (strLower d))
      lines := by
  cases fetchW with
  | none => simp [get_who_outbreak_data] at h
  | some data =>
    exact ⟨who_filtered_eq data cache lines d h, List.filter_sublist lines⟩

/-- C3 amended witness: filtering by `"dengue"` retains the line whose
title is `Dengue outbreak`. -/
theorem who_filter_retains_line_matches_witness :
    (get_who_outbreak_data (some whoData) none []).1 = some [whoLine] ∧
    (get_who_outbreak_data (some whoData) (some "dengue") []).1
      = some [whoLine] :=
  ⟨rfl, (who_filter_retains_line_matches (some whoData) "dengue" [] [whoLine]
    rfl).1⟩

/-- C4 counterexample: a successful fetch whose filter yields zero
matches returns the very value a failed fetch returns — the two calls
are equal, both `None` — so the caller cannot distinguish them. -/
theorem who_zero_match_equals_fetch_failure :
    (get_who_outbreak_data (some whoData) none []).1 = some [whoLine] ∧
    get_who_outbreak_data (some whoData) (some "zzz") []
      = get_who_outbreak_data none (some "zzz") [] ∧
    (get_who_outbreak_data (some whoData) (some "zzz") []).1 = none :=
  ⟨rfl, rfl, rfl⟩

/-- C4 amended: when the fetch succeeds but the filter yields zero
matching lines, the call returns `None`, exactly the value returned
when the fetch failed: the two cases are not distinguishable at the
function's interface. -/
theorem who_zero_match_returns_none
    (data : Json) (d : String) (cache : Cache) (lines : List String)
    (h1 : (get_who_outbreak_data (some data) none cache).1 = some lines)
    (h2 : lines.filter (fun i => strContains (strLower i) (strLower d)) = []) :
    (get_who_outbreak_data (some data) (some d) cache).1 = none ∧
    (get_who_outbreak_data none (some d) cache).1 = none := by
  constructor
  · rw [who_filtered_eq data cache lines d h1, h2]
    rfl
  · rfl

/-- C4 amended witness: the `"zzz"` filter matches nothing in the
one-item feed, and both the filtered call and the failed-fetch call
return `None`. -/
theorem who_zero_match_returns_none_witness :
    (get_who_outbreak_data (some whoData) none []).1 = some [whoLine] ∧
    [whoLine].filter (fun i => strContains (strLower i) (strLower "zzz")) = [] ∧
    (get_who_outbreak_data (some whoData) (some "zzz") []).1 = none ∧
    (get_who_outbreak_data none (some "zzz") []).1 = none :=
  ⟨rfl, rfl,
   (who_zero_match_returns_none whoData "zzz" [] [whoLine] rfl rfl).1,
   (who_zero_match_returns_none whoData "zzz" [] [whoLine] rfl rfl).2⟩

/-- C5: for a well-formed dataset and a disease name matching no
record, `find_disease_info` returns `None` and raises no exception
(the result is an `.ok`, never an `.error`). -/
theorem find_disease_info_absent_returns_null
    (fetch : String → Option Json) (cache : Cache)
    (name ty url key field : String) (fs : List (String × Json))
    (items : List Json)
    (hcat : (ty, url, key, field) ∈ categories)
    (hdata : (get_data_from_github fetch cache url).1 = Json.obj fs)
    (hkey : fs.lookup key = some (Json.arr items))
    (hwf : ∀ it ∈ items, (recordNameLower it).isSome = true)
    (habs : ∀ it ∈ items, ¬ recordNameLower it = some (strLower name)) :
    find_disease_info fetch cache name ty
      = (.ok Json.null,
         (get_data_from_github fetch cache url).2.1,
         (get_data_from_github fetch cache url).2.2) := by
  rw [find_disease_info_eq_spec fetch cache name ty url key field fs items
    hcat hdata hkey hwf]
  have hfind :
      List.find? (fun it => recordNameLower it == some (strLower name)) items
        = none := by
    rw [List.find?_eq_none]
    intro x hx
    simp only [beq_iff_eq]
    exact fun hc => habs x hx (by simp [hc])
  rw [specResolve, hfind]

/-- C5 witness: on the scenario dataset holding only `Flu`, resolving
`"measles"` for symptoms yields `None` without raising. -/
theorem find_disease_info_absent_returns_null_witness :
    fluFields.lookup "diseases_with_symptoms" = some (Json.arr [fluItem]) ∧
    find_disease_info fluFetch [] "measles" "symptoms"
      = (.ok Json.null, [(SYMPTOMS_URL, fluData)], 1) :=
  ⟨rfl,
    find_disease_info_absent_returns_null fluFetch [] "measles" "symptoms"
      SYMPTOMS_URL "diseases_with_symptoms" "symptoms" fluFields [fluItem]
      (List.mem_cons_self _ _) rfl rfl
      (by intro it hit; rw [List.mem_singleton] at hit; subst hit; rfl)
      (by intro it hit; rw [List.mem_singleton] at hit; subst hit; decide)⟩

/-- C6: `find_disease_info` depends on the disease name only through
its lower-cased form, so any two case variants of a name resolve to
the same result, for every category and cache state. -/
theorem find_disease_info_case_insensitive
    (fetch : String → Option Json) (cache : Cache) (n1 n2 ty : String)
    (h : strLower n1 = strLower n2) :
    find_disease_info fetch cache n1 ty = find_disease_info fetch cache n2 ty := by
  simp only [find_disease_info, lookupScan_lower_eq n1 n2 h]

/-- C6 witness: resolving `"Malaria"` equals resolving `"MALARIA"` on a
dataset holding a `Malaria` record. -/
theorem find_disease_info_case_insensitive_witness :
    strLower "Malaria" = strLower "MALARIA" ∧
    find_disease_info malariaFetch [] "Malaria" "symptoms"
      = find_disease_info malariaFetch [] "MALARIA" "symptoms" :=
  ⟨rfl, find_disease_info_case_insensitive malariaFetch [] "Malaria" "MALARIA"
    "symptoms" rfl⟩

/-- C7: every call to `get_who_outbreak_data` leaves the response cache
untouched and issues exactly one HTTP request (the body never reads or
writes `data_cache`), and any returned list holds at most 5 items and
is a sublist — same relative order, no re-sorting — of the feed-order
unfiltered list. -/
theorem who_fresh_fetch_page_limit_order
    (fetchW : Option Json) (disease : Option String) (cache : Cache) :
    (get_who_outbreak_data fetchW disease cache).2.1 = cache ∧
    (get_who_outbreak_data fetchW disease cache).2.2 = 1 ∧
    ∀ ls, (get_who_outbreak_data fetchW disease cache).1 = some ls →
      ls.length ≤ 5 ∧
      ∃ pre, (get_who_outbreak_data fetchW none cache).1 = some pre ∧
        List.Sublist ls pre ∧ pre.length ≤ 5 := by
  refine ⟨?_, ?_, ?_⟩
  · cases fetchW with
    | none => rfl
    | some data => cases h : whoBody data disease <;> simp [get_who_outbreak_data, h]
  · cases fetchW with
    | none => rfl
    | some data => cases h : whoBody data disease <;> simp [get_who_outbreak_data, h]
  · intro ls h
    cases fetchW with
    | none => simp [get_who_outbreak_data] at h
    | some data =>
      cases disease with
      | none =>
        have hwo := who_unfiltered_inv data cache ls h
        have hlen := whoOutbreaks_length_le data ls hwo
        exact ⟨hlen, ls, h, List.Sublist.refl ls, hlen⟩
      | some d =>
        obtain ⟨outbreaks, hwo, hfil⟩ := who_filtered_inv data d cache ls h
        have hpre : (get_who_outbreak_data (some data) none cache).1
            = some outbreaks := by
          simp [get_who_outbreak_data, whoBody, hwo]
        have hplen := whoOutbreaks_length_le data outbreaks hwo
        have hsub : List.Sublist ls outbreaks := by
          rw [hfil]; exact List.filter_sublist outbreaks
        exact ⟨le_trans (List.Sublist.length_le hsub) hplen,
          outbreaks, hpre, hsub, hplen⟩

/-- C7 witness: on the one-item feed the call leaves the cache
unchanged, issues one request, and the returned list length is within
the page size 5. -/
theorem who_fresh_fetch_page_limit_order_witness :
    (get_who_outbreak_data (some whoData) none []).2.1 = ([] : Cache) ∧
    (get_who_outbreak_data (some whoData) none []).2.2 = 1 ∧
    ([whoLine] : List String).length ≤ 5 := by
  obtain ⟨h1, h2, h3⟩ := who_fresh_fetch_page_limit_order (some whoData) none []
  exact ⟨h1, h2, (h3 [whoLine] rfl).1⟩

/-- C8 counterexample: with a failing fetch, the first call performs
one network call and the second call on the same URL performs one
again — not zero — so a URL can be fetched more than once per process
lifetime. -/
theorem data_cache_refetches_after_failure :
    (get_data_from_github failFetch [] "u").2.2 = 1 ∧
    (get_data_from_github failFetch
      ((get_data_from_github failFetch [] "u").2.1) "u").2.2 = 1 ∧
    (get_data_from_github failFetch
      ((get_data_from_github failFetch [] "u").2.1) "u").2.2 ≠ 0 :=
  ⟨rfl, rfl, by decide⟩

/-- C8 amended: cache entries are never mutated or removed by
`get_data_from_github` (every stored binding survives any call), and
once a URL's fetch has succeeded the entry is cached, so a later call
on that URL performs zero network calls and returns the stored value;
after a failure, however, the fetch is re-attempted, so "at most one
fetch per URL" holds only for successful fetches. -/
theorem data_cache_write_once_on_success
    (fetch fetch2 : String → Option Json) (cache : Cache) (url k : String)
    (v w : Json) :
    (cache.lookup k = some w →
      ((get_data_from_github fetch cache url).2.1).lookup k = some w) ∧
    (cache.lookup url = none → fetch url = some v →
      (get_data_from_github fetch cache url).2.2 = 1 ∧
      get_data_from_github fetch2 ((get_data_from_github fetch cache url).2.1) url
        = (v, (get_data_from_github fetch cache url).2.1, 0)) := by
  constructor
  · intro h
    unfold get_data_from_github
    cases hl : cache.lookup url with
    | some x => exact h
    | none =>
      cases hf : fetch url with
      | some d => exact lookup_append_of_some k w cache [(url, d)] h
      | none => exact h
  · intro h hf
    have h1 : get_data_from_github fetch cache url = (v, cache ++ [(url, v)], 1) := by
      simp [get_data_from_github, h, hf]
    rw [h1]
    refine ⟨rfl, ?_⟩
    have h2 : (cache ++ [(url, v)]).lookup url = some v :=
      lookup_append_single_self url v cache h
    simp [get_data_from_github, h2]

/-- C8 amended witness: an unrelated stored entry survives a call on a
different URL, and after one successful fetch of `"u"` the next call
returns the stored value with zero network calls. -/
theorem data_cache_write_once_on_success_witness :
    ([("a", Json.num 1)] : Cache).lookup "a" = some (.num 1) ∧
    ((get_data_from_github numFetch [("a", .num 1)] "u").2.1).lookup "a"
      = some (.num 1) ∧
    (get_data_from_github numFetch [("a", .num 1)] "u").2.2 = 1 ∧
    get_data_from_github numFetch
        ((get_data_from_github numFetch [("a", .num 1)] "u").2.1) "u"
      = (.num 7, (get_data_from_github numFetch [("a", .num 1)] "u").2.1, 0) :=
  ⟨rfl,
   (data_cache_write_once_on_success numFetch numFetch [("a", .num 1)] "u" "a"
     (.num 7) (.num 1)).1 rfl,
   ((data_cache_write_once_on_success numFetch numFetch [("a", .num 1)] "u" "a"
     (.num 7) (.num 1)).2 rfl rfl).1,
   ((data_cache_write_once_on_success numFetch numFetch [("a", .num 1)] "u" "a"
     (.num 7) (.num 1)).2 rfl rfl).2⟩

/-- C9: when the fetched feed object has no `value` key or an empty
`value` array, `get_who_outbreak_data` with no filter returns `None` —
the same value as on a failed fetch, so an empty feed is
indistinguishable from a failed fetch. -/
theorem who_empty_feed_indistinguishable_from_failure
    (fs : List (String × Json)) (cache : Cache)
    (hval : fs.lookup "value" = none ∨ fs.lookup "value" = some (Json.arr [])) :
    (get_who_outbreak_data (some (Json.obj fs)) none cache).1 = none ∧
    (get_who_outbreak_data none none cache).1 = none := by
  refine ⟨?_, rfl⟩
  rcases hval with h | h
  · simp [get_who_outbreak_data, whoBody, whoOutbreaks, pyContains, h]
  · simp [get_who_outbreak_data, whoBody, whoOutbreaks, pyContains, pyIndex, h,
      Json.truthy]

/-- C9 witness: a feed whose `value` array is empty yields `None`, as
does a failed fetch. -/
theorem who_empty_feed_indistinguishable_from_failure_witness :
    ([("value", Json.arr [])] : List (String × Json)).lookup "value"
      = some (Json.arr []) ∧
    (get_who_outbreak_data (some (Json.obj [("value", Json.arr [])])) none []).1
      = none ∧
    (get_who_outbreak_data none none []).1 = none :=
  ⟨rfl,
   (who_empty_feed_indistinguishable_from_failure [("value", Json.arr [])] []
     (Or.inr rfl)).1,
   (who_empty_feed_indistinguishable_from_failure [("value", Json.arr [])] []
     (Or.inr rfl)).2⟩

/-- C10: for any `info_type` other than exactly `"symptoms"` and
`"prevention"`, `find_disease_info` returns `None` with no fetch and no
cache access, for every disease name, fetch behaviour and cache. -/
theorem find_disease_info_unknown_info_type
    (fetch : String → Option Json) (cache : Cache) (name ty : String)
    (h1 : ty ≠ "symptoms") (h2 : ty ≠ "prevention") :
    find_disease_info fetch cache name ty = (.ok Json.null, cache, 0) := by
  simp only [find_disease_info, if_neg h1, if_neg h2]

/-- C10 witness: the info type `"treatment"` returns `None` with the
cache untouched and zero requests. -/
theorem find_disease_info_unknown_info_type_witness :
    ("treatment" : String) ≠ "symptoms" ∧
    ("treatment" : String) ≠ "prevention" ∧
    find_disease_info fluFetch [] "flu" "treatment" = (.ok Json.null, [], 0) :=
  ⟨by decide, by decide,
   find_disease_info_unknown_info_type fluFetch [] "flu" "treatment"
     (by decide) (by decide)⟩
